import Mathlib

/-!
# esp32-cam_AI: the capture-and-persist pipeline

A shallow embedding of `src/main.cpp` (`app_main`, `camera_task`,
`save_cam_image`), `components/camera_ctl/camera_ctl.cpp`
(`CameraCtl::init_camera`, `CameraCtl::camera_xclk_init`) and of `pair_hash`
from `components/wifi_station/WiFiStation.hpp`.

The firmware is a sequence of calls into the vendor SDK.  Every such call is
recorded as an `Event` of a trace, in program order; what the SDK answers
(error codes, the frame pointer handed out by the driver, the bytes the JPEG
decoder stores) is an input of the model.  A C pointer that may be `NULL` is
an `Option`; reading a field through a null pointer stops the task.
Bytes are natural numbers, the working image buffer is the list of its bytes.
-/

namespace EspCam

/-! ## Driver types (esp32-camera `sensor.h`, `esp_camera.h`) -/

/-- Pixel formats of the camera driver (`pixformat_t`). -/
inductive pixformat_t where
  | PIXFORMAT_RGB565
  | PIXFORMAT_YUV422
  | PIXFORMAT_YUV420
  | PIXFORMAT_GRAYSCALE
  | PIXFORMAT_JPEG
  | PIXFORMAT_RGB888
  | PIXFORMAT_RAW
  | PIXFORMAT_RGB444
  | PIXFORMAT_RGB555
  deriving DecidableEq, Repr

/-- Frame sizes of the camera driver (`framesize_t`), the small ones. -/
inductive framesize_t where
  | FRAMESIZE_96X96
  | FRAMESIZE_QQVGA
  | FRAMESIZE_QCIF
  | FRAMESIZE_HQVGA
  | FRAMESIZE_240X240
  | FRAMESIZE_QVGA
  deriving DecidableEq, Repr

/-- Width and height of a frame size: the `resolution` table of the camera
driver, which is not part of the sources. -/
def resolution : framesize_t → Nat × Nat
  | .FRAMESIZE_96X96 => (96, 96)
  | .FRAMESIZE_QQVGA => (160, 120)
  | .FRAMESIZE_QCIF => (176, 144)
  | .FRAMESIZE_HQVGA => (240, 176)
  | .FRAMESIZE_240X240 => (240, 240)
  | .FRAMESIZE_QVGA => (320, 240)

/-- The frame descriptor `camera_fb_t` handed out by `esp_camera_fb_get`
(the timestamp is left out: nothing reads it). -/
structure camera_fb_t where
  buf : List Nat
  len : Nat
  width : Nat
  height : Nat
  format : pixformat_t
  deriving DecidableEq, Repr

/-- The fields of `camera_config_t` that `init_camera` sets from literals; the
pin map and `CONFIG_XCLK_FREQ` are macros of a header that is not part of the
sources and are left out. -/
structure camera_config_t where
  pixel_format : pixformat_t
  frame_size : framesize_t
  jpeg_quality : Nat
  fb_count : Nat
  deriving DecidableEq, Repr

/-- The value `ESP_OK` of `esp_err_t`. -/
def ESP_OK : Int := 0

/-- The value `ESP_ERR_NVS_NO_FREE_PAGES` (`ESP_ERR_NVS_BASE + 0x0d`). -/
def ESP_ERR_NVS_NO_FREE_PAGES : Int := 0x110d

/-- The value `ESP_ERR_NVS_NEW_VERSION_FOUND` (`ESP_ERR_NVS_BASE + 0x10`). -/
def ESP_ERR_NVS_NEW_VERSION_FOUND : Int := 0x1110

/-- The pin `GPIO_NUM_33`, the busy line. -/
def GPIO_NUM_33 : Nat := 33

/-! ## Effects -/

/-- One call into the SDK or into a helper of the firmware, with the arguments
it was given (and, for calls whose answer the model takes as input, the
answer). -/
inductive Event where
  | log (msg : String)
  | heap_caps_malloc (size : Nat)
  | gpio_set_direction (pin : Nat)
  | xQueueCreate (length : Nat) (item_size : Nat)
  | nvs_flash_init
  | nvs_flash_erase
  | initi_sd_card (mount_point : String)
  | vTaskDelay (ms : Nat)
  | xTaskCreate (name : String)
  | ledc_timer_config (freq_hz : Nat)
  | ledc_channel_config
  | esp_camera_init (config : camera_config_t)
  | gpio_set_level (pin : Nat) (level : Nat)
  | esp_camera_fb_get (result : Option camera_fb_t)
  | fmt2rgb888 (src : List Nat) (src_len : Nat) (format : pixformat_t) (ok : Bool)
  | resizeColorImage (src_width src_height dst_width dst_height : Nat)
  | saveAsPPM (fname : String) (data : List Nat) (width height : Nat)
  | esp_camera_fb_return (fb : Option camera_fb_t)
  deriving DecidableEq, Repr

/-- Code outside the sources that the pipeline calls on the image data.
`decode src len fmt` is what the converter of the camera driver behind
`fmt2rgb888` does with `len` bytes at `src`: whether it reports success, and
the bytes it stores from the start of the output buffer (it only writes the
output, it never reads it).  `resize buf sw sh dw dh` is `resizeColorImage`
called with source and destination both `buf`. -/
structure Externals where
  decode : List Nat → Nat → pixformat_t → Bool × List Nat
  resize : List Nat → Nat → Nat → Nat → Nat → List Nat

/-- The call `fmt2rgb888(src, len, format, rgb_buf)`: the decoded bytes
replace the front of `rgb_buf`, the rest of the buffer keeps its old
contents. -/
def fmt2rgb888 (ext : Externals) (src : List Nat) (src_len : Nat)
    (format : pixformat_t) (rgb_buf : List Nat) : Bool × List Nat :=
  let r := ext.decode src src_len format
  (r.1, r.2 ++ rgb_buf.drop r.2.length)

/-- Modelled from the spec: `resizeColorImage`, whose source file is missing,
as the nearest-neighbour downscale of §4.4 step 2, "written back into the same
Working Image Buffer (overwriting the decoded pixels in place)": destination
bytes are stored in row-major order, byte `c` of destination pixel `(x, y)`
being read from source pixel `(x * sw / dw, y * sh / dh)` of the same
buffer. -/
def resizeColorImage (buf : List Nat) (sw sh dw dh : Nat) : List Nat :=
  (List.range (dw * dh * 3)).foldl
    (fun b o =>
      b.set o (b.getD ((((o / 3) / dw * sh / dh) * sw + ((o / 3) % dw * sw / dw)) * 3 + o % 3) 0))
    buf

/-! ## `main.cpp` -/

/-- The size in bytes of the working image buffer allocated by `app_main`:
`heap_caps_malloc(160 * 120 * 3, MALLOC_CAP_SPIRAM)`. -/
def IMG_BUFFER_BYTES : Nat := 160 * 120 * 3

/-- The function `save_cam_image(fname, pic, img_buffer)`.  Returns the events and the new
contents of the buffer, or `none` when `pic` is null: the first thing the
function does is read `pic->format`.  The `bool` that `fmt2rgb888` returns is
discarded, as in the source. -/
def save_cam_image (ext : Externals) (fname : String) (pic : Option camera_fb_t)
    (img_buffer : List Nat) : Option (List Event × List Nat) :=
  match pic with
  | none => none
  | some fb =>
    if fb.format = pixformat_t.PIXFORMAT_JPEG then
      let d := fmt2rgb888 ext fb.buf fb.len pixformat_t.PIXFORMAT_JPEG img_buffer
      let resized := ext.resize d.2 160 120 96 96
      some ([Event.fmt2rgb888 fb.buf fb.len pixformat_t.PIXFORMAT_JPEG d.1,
             Event.resizeColorImage 160 120 96 96,
             Event.saveAsPPM fname resized 96 96], resized)
    else
      some ([], img_buffer)

/-- The result of `sprintf(photo_name, "/sdcard/pic_%u.ppm", i)`. -/
def photo_name (i : Nat) : String :=
  "/sdcard/pic_" ++ toString i ++ ".ppm"

/-- The local and global variables of `camera_task` that live across
iterations: the counter `i` (an `unsigned int`), `cam.pic`, and the contents
of `img_buffer`. -/
structure TaskState where
  i : Nat
  pic : Option camera_fb_t
  img_buffer : List Nat
  deriving DecidableEq, Repr

/-- What one iteration of the loop is given: the command byte that
`xQueueReceive` stored in `cmd`, and the pointer `esp_camera_fb_get`
returns. -/
structure CycleInput where
  cmd : Nat
  frame : Option camera_fb_t
  deriving DecidableEq, Repr

/-- Modelled from the spec: `CameraCtl::capture`, declared in a header that is
missing, as the adapter's acquire, `pic = esp_camera_fb_get()` (the first
statement of `capture_do`). -/
def capture (st : TaskState) (frame : Option camera_fb_t) : List Event × TaskState :=
  ([Event.esp_camera_fb_get frame], { st with pic := frame })

/-- Modelled from the spec: `CameraCtl::free_buffer`, declared in a header
that is missing, as the adapter's release, `esp_camera_fb_return(pic)` (the
last statement of `capture_do`). -/
def free_buffer (st : TaskState) : List Event × TaskState :=
  ([Event.esp_camera_fb_return st.pic], st)

/-- One iteration of the `while(1)` of `camera_task`, after `xQueueReceive`
has returned.  The events of the iteration, and the state for the next one, or
`none` when the iteration stopped on a null pointer. -/
def camera_cycle (ext : Externals) (st : TaskState) (inp : CycleInput) :
    List Event × Option TaskState :=
  let low := [Event.gpio_set_level GPIO_NUM_33 0]
  let name := photo_name st.i
  let st1 := { st with i := (st.i + 1) % 2 ^ 32 }
  let c := capture st1 inp.frame
  match save_cam_image ext name c.2.pic c.2.img_buffer with
  | none => (low ++ c.1, none)
  | some (evs, buf) =>
    let f := free_buffer { c.2 with img_buffer := buf }
    (low ++ c.1 ++ evs ++ f.1 ++
      [Event.log "Finished Taking Picture!", Event.gpio_set_level GPIO_NUM_33 1], some f.2)

/-- The `while(1)` of `camera_task` over the commands that are dequeued, one
list of events per iteration that was entered.  The state is `some` when the
task is blocked in `xQueueReceive` again after the last command, `none` when
it stopped on a null pointer. -/
def camera_loop (ext : Externals) : TaskState → List CycleInput →
    List (List Event) × Option TaskState
  | st, [] => ([], some st)
  | st, inp :: rest =>
    match camera_cycle ext st inp with
    | (evs, none) => ([evs], none)
    | (evs, some st1) =>
      let r := camera_loop ext st1 rest
      (evs :: r.1, r.2)

/-! ## `camera_ctl.cpp` -/

/-- What the SDK answers during `init_camera`. -/
structure InitEnv where
  ledc_timer_config : Int
  ledc_channel_config : Int
  esp_camera_init : Int
  deriving DecidableEq, Repr

/-- The method `CameraCtl::camera_xclk_init(freq_hz)`; `ESP_RETURN_ON_ERROR` logs and
returns the error code of a call that did not answer `ESP_OK`. -/
def camera_xclk_init (env : InitEnv) (freq_hz : Nat) : List Event × Int :=
  if env.ledc_timer_config ≠ ESP_OK then
    ([Event.ledc_timer_config freq_hz, Event.log "ledc_timer"], env.ledc_timer_config)
  else if env.ledc_channel_config ≠ ESP_OK then
    ([Event.ledc_timer_config freq_hz, Event.ledc_channel_config, Event.log "ledc_channel"],
      env.ledc_channel_config)
  else
    ([Event.ledc_timer_config freq_hz, Event.ledc_channel_config], ESP_OK)

/-- The `config` of `init_camera`. -/
def camera_config : camera_config_t :=
  { pixel_format := pixformat_t.PIXFORMAT_JPEG
    frame_size := framesize_t.FRAMESIZE_QQVGA
    jpeg_quality := 12
    fb_count := 1 }

/-- The method `CameraCtl::init_camera()`. -/
def init_camera (env : InitEnv) : List Event × Int :=
  let x := camera_xclk_init env 20000000
  if x.2 ≠ ESP_OK then
    (x.1 ++ [Event.log "xclk_init"], x.2)
  else if env.esp_camera_init ≠ ESP_OK then
    (x.1 ++ [Event.esp_camera_init camera_config, Event.log "camera_init"], env.esp_camera_init)
  else
    (x.1 ++ [Event.esp_camera_init camera_config], ESP_OK)

/-- How a run of `camera_task` over finitely many commands ends. -/
inductive TaskStatus where
  | returned
  | waiting
  | stopped_on_null
  deriving DecidableEq, Repr

/-- A run of `camera_task`: the events of the initialisation, the events of
each iteration of the loop, and how the run ends. -/
structure TaskRun where
  init : List Event
  cycles : List (List Event)
  status : TaskStatus
  deriving DecidableEq, Repr

/-- All events of a run, in program order. -/
def TaskRun.trace (r : TaskRun) : List Event :=
  r.init ++ r.cycles.flatten

/-- The function `camera_task(p)`, run on the commands `inputs`, with `img_buffer` the
contents of the working image buffer when the task starts. -/
def camera_task (ext : Externals) (env : InitEnv) (img_buffer : List Nat)
    (inputs : List CycleInput) : TaskRun :=
  let ini := init_camera env
  if ini.2 ≠ ESP_OK then
    { init := ini.1 ++ [Event.log "err"], cycles := [], status := TaskStatus.returned }
  else
    let r := camera_loop ext { i := 0, pic := none, img_buffer := img_buffer } inputs
    { init := ini.1 ++ [Event.log "camera initialized"]
      cycles := r.1
      status := match r.2 with
        | some _ => TaskStatus.waiting
        | none => TaskStatus.stopped_on_null }

/-- What the SDK answers during `app_main`: whether `heap_caps_malloc` returns
a buffer, the error codes of the two calls of `nvs_flash_init`, of
`nvs_flash_erase` and of `initi_sd_card`, whether `xTaskCreate` creates the
task, and the answers during `init_camera` in the created task. -/
structure BootEnv where
  heap_caps_malloc : Bool
  nvs_flash_init : Int
  nvs_flash_erase : Int
  nvs_flash_init_again : Int
  initi_sd_card : Int
  xTaskCreate : Bool
  camera : InitEnv
  deriving DecidableEq, Repr

/-- The events of `app_main` up to `ESP_ERROR_CHECK(ret)` after the
initialisation of NVS, and whether execution goes on (`ESP_ERROR_CHECK`
aborts on a code other than `ESP_OK`). -/
def app_main_nvs (env : BootEnv) : List Event × Bool :=
  if env.nvs_flash_init = ESP_ERR_NVS_NO_FREE_PAGES ∨
      env.nvs_flash_init = ESP_ERR_NVS_NEW_VERSION_FOUND then
    if env.nvs_flash_erase ≠ ESP_OK then
      ([Event.nvs_flash_init, Event.nvs_flash_erase], false)
    else
      ([Event.nvs_flash_init, Event.nvs_flash_erase, Event.nvs_flash_init],
        decide (env.nvs_flash_init_again = ESP_OK))
  else
    ([Event.nvs_flash_init], decide (env.nvs_flash_init = ESP_OK))

/-- The function `app_main()`: its events, and whether it created the camera task. -/
def app_main (env : BootEnv) : List Event × Bool :=
  let start := [Event.log "application started", Event.heap_caps_malloc IMG_BUFFER_BYTES]
  if env.heap_caps_malloc = false then
    (start ++ [Event.log "Failed to allocate memory in PSRAM"], false)
  else
    let setup := start ++ [Event.gpio_set_direction GPIO_NUM_33,
      Event.xQueueCreate 10 4, Event.xQueueCreate 10 1]
    let nvs := app_main_nvs env
    if nvs.2 = false then
      (setup ++ nvs.1, false)
    else if env.initi_sd_card ≠ ESP_OK then
      (setup ++ nvs.1 ++ [Event.initi_sd_card "/sdcard", Event.log "initialization failed"], false)
    else
      (setup ++ nvs.1 ++ [Event.initi_sd_card "/sdcard", Event.vTaskDelay 5000,
        Event.xTaskCreate "camera"], env.xTaskCreate)

/-- The start of the firmware: `app_main`, then the camera task when
`app_main` created it (nothing follows `xTaskCreate` in `app_main`). -/
def startup (ext : Externals) (env : BootEnv) (img_buffer : List Nat)
    (inputs : List CycleInput) : List Event :=
  let a := app_main env
  if a.2 then a.1 ++ (camera_task ext env.camera img_buffer inputs).trace else a.1

/-! ## Observations on traces -/

/-- The links of the startup chain. -/
inductive StartupStep where
  | storage_mount
  | task_spawn
  | clock_timer
  | clock_channel
  | sensor_init
  deriving DecidableEq, Repr

/-- The link of the startup chain that an event belongs to, if any. -/
def startup_step : Event → Option StartupStep
  | Event.initi_sd_card _ => some StartupStep.storage_mount
  | Event.xTaskCreate _ => some StartupStep.task_spawn
  | Event.ledc_timer_config _ => some StartupStep.clock_timer
  | Event.ledc_channel_config => some StartupStep.clock_channel
  | Event.esp_camera_init _ => some StartupStep.sensor_init
  | _ => none

/-- The links of the startup chain that a trace goes through, in order. -/
def startup_chain (t : List Event) : List StartupStep :=
  t.filterMap startup_step

/-- Whether an event is diagnostic output (`ESP_LOGx`, `printf`). -/
def is_log : Event → Bool
  | Event.log _ => true
  | _ => false

/-- The events of a trace other than diagnostic output. -/
def effects (t : List Event) : List Event :=
  t.filter (fun e => !is_log e)

/-- Acquire and release of a frame. -/
inductive FrameOp where
  | acquire
  | release
  deriving DecidableEq, Repr

/-- Whether an event is an acquire (`esp_camera_fb_get`) or a release
(`esp_camera_fb_return`). -/
def frame_op : Event → Option FrameOp
  | Event.esp_camera_fb_get _ => some FrameOp.acquire
  | Event.esp_camera_fb_return _ => some FrameOp.release
  | _ => none

/-- The acquires and releases of a trace, in order. -/
def frame_ops (t : List Event) : List FrameOp :=
  t.filterMap frame_op

/-- The number of frames outstanding after a sequence of acquires and
releases, as acquires minus releases. -/
def outstanding (ops : List FrameOp) : Int :=
  (ops.count FrameOp.acquire : Int) - (ops.count FrameOp.release : Int)

/-- What a trace hands to `saveAsPPM`: file name, pixel data (the
`width * height * 3` bytes at the pointer it is given), width, height of each
call. -/
def saved : List Event → List (String × List Nat × Nat × Nat)
  | [] => []
  | Event.saveAsPPM fname data w h :: t => (fname, data.take (w * h * 3), w, h) :: saved t
  | _ :: t => saved t

/-- Whether an event is a call of a step of the decode, resize, serialize
chain. -/
def is_chain_call : Event → Bool
  | Event.fmt2rgb888 _ _ _ _ => true
  | Event.resizeColorImage _ _ _ _ => true
  | Event.saveAsPPM _ _ _ _ => true
  | _ => false

/-- The byte offset of channel `c` of pixel `(x, y)` in an RGB888 image of
width `w`, rows first. -/
def rgb888_offset (w x y c : Nat) : Nat :=
  (y * w + x) * 3 + c

/-- The size in bytes of an RGB888 image of the given width and height. -/
def rgb888_size (dims : Nat × Nat) : Nat :=
  dims.1 * dims.2 * 3

/-- What `save_cam_image` hands to `saveAsPPM` on the valid frame `fb`, with
`buf` the contents of the working image buffer at the call. -/
def chain_output (ext : Externals) (fname : String) (fb : camera_fb_t) (buf : List Nat) :
    List (String × List Nat × Nat × Nat) :=
  match save_cam_image ext fname (some fb) buf with
  | some (evs, _) => saved evs
  | none => []

/-! ## Inputs used in examples -/

/-- A decoder for examples: it rejects data of length 0 without storing a
byte, as a JPEG decoder does on data that has no header, and stores a whole
160x120 RGB888 image of equal bytes for any other input; with it, the
nearest-neighbour resize. -/
def sample_ext : Externals :=
  { decode := fun _ len _ =>
      if len = 0 then (false, []) else (true, List.replicate IMG_BUFFER_BYTES 128)
    resize := resizeColorImage }

/-- A frame in JPEG format with no data. -/
def empty_jpeg : camera_fb_t :=
  { buf := [], len := 0, width := 160, height := 120, format := pixformat_t.PIXFORMAT_JPEG }

/-- A frame in JPEG format of the configured size (the data are only the
start and end markers). -/
def jpeg_frame : camera_fb_t :=
  { buf := [255, 216, 255, 217], len := 4, width := 160, height := 120,
    format := pixformat_t.PIXFORMAT_JPEG }

/-- A frame in a format other than JPEG. -/
def gray_frame : camera_fb_t :=
  { buf := [0, 0, 0, 0], len := 4, width := 2, height := 2,
    format := pixformat_t.PIXFORMAT_GRAYSCALE }

/-- Answers of the SDK with which `init_camera` succeeds. -/
def init_ok : InitEnv :=
  { ledc_timer_config := ESP_OK, ledc_channel_config := ESP_OK, esp_camera_init := ESP_OK }

/-- Answers of the SDK with which every step of the startup succeeds. -/
def boot_ok : BootEnv :=
  { heap_caps_malloc := true, nvs_flash_init := ESP_OK, nvs_flash_erase := ESP_OK,
    nvs_flash_init_again := ESP_OK, initi_sd_card := ESP_OK, xTaskCreate := true,
    camera := init_ok }


/-- Answers of the SDK with which everything succeeds but the configuration
of the clock timer. -/
def clock_fails : BootEnv :=
  { boot_ok with camera := { init_ok with ledc_timer_config := -1 } }

/-! ## `WiFiStation.hpp` -/

/-- The call operator `pair_hash::operator()`: `std::hash<T1>()(pair.first) ^ std::hash<T2>()(pair.second)`
as a `std::size_t` of 32 bits; `h1` and `h2` are the two `std::hash`
specialisations. -/
def pair_hash {α β : Type} (h1 : α → Nat) (h2 : β → Nat) (p : α × β) : Nat :=
  (h1 p.1 % 2 ^ 32) ^^^ (h2 p.2 % 2 ^ 32)

end EspCam

namespace EspCam

/-! ## `save_cam_image` and one iteration of the loop -/

theorem save_cam_image_jpeg (ext : Externals) (fname : String) (fb : camera_fb_t)
    (buf : List Nat) (h : fb.format = pixformat_t.PIXFORMAT_JPEG) :
    save_cam_image ext fname (some fb) buf =
      some ([Event.fmt2rgb888 fb.buf fb.len pixformat_t.PIXFORMAT_JPEG
               (ext.decode fb.buf fb.len pixformat_t.PIXFORMAT_JPEG).1,
             Event.resizeColorImage 160 120 96 96,
             Event.saveAsPPM fname
               (ext.resize (fmt2rgb888 ext fb.buf fb.len pixformat_t.PIXFORMAT_JPEG buf).2
                 160 120 96 96) 96 96],
            ext.resize (fmt2rgb888 ext fb.buf fb.len pixformat_t.PIXFORMAT_JPEG buf).2
              160 120 96 96) := by
  simp [save_cam_image, h, fmt2rgb888]

theorem save_cam_image_other (ext : Externals) (fname : String) (fb : camera_fb_t)
    (buf : List Nat) (h : fb.format ≠ pixformat_t.PIXFORMAT_JPEG) :
    save_cam_image ext fname (some fb) buf = some ([], buf) := by
  simp [save_cam_image, h]

theorem camera_cycle_jpeg (ext : Externals) (st : TaskState) (cmd : Nat) (fb : camera_fb_t)
    (h : fb.format = pixformat_t.PIXFORMAT_JPEG) :
    camera_cycle ext st { cmd := cmd, frame := some fb } =
      ([Event.gpio_set_level GPIO_NUM_33 0,
        Event.esp_camera_fb_get (some fb),
        Event.fmt2rgb888 fb.buf fb.len pixformat_t.PIXFORMAT_JPEG
          (ext.decode fb.buf fb.len pixformat_t.PIXFORMAT_JPEG).1,
        Event.resizeColorImage 160 120 96 96,
        Event.saveAsPPM (photo_name st.i)
          (ext.resize (fmt2rgb888 ext fb.buf fb.len pixformat_t.PIXFORMAT_JPEG
            st.img_buffer).2 160 120 96 96) 96 96,
        Event.esp_camera_fb_return (some fb),
        Event.log "Finished Taking Picture!",
        Event.gpio_set_level GPIO_NUM_33 1],
       some { i := (st.i + 1) % 2 ^ 32, pic := some fb,
              img_buffer := ext.resize (fmt2rgb888 ext fb.buf fb.len
                pixformat_t.PIXFORMAT_JPEG st.img_buffer).2 160 120 96 96 }) := by
  simp [camera_cycle, capture, free_buffer, save_cam_image_jpeg ext _ fb _ h]

theorem camera_cycle_other (ext : Externals) (st : TaskState) (cmd : Nat) (fb : camera_fb_t)
    (h : fb.format ≠ pixformat_t.PIXFORMAT_JPEG) :
    camera_cycle ext st { cmd := cmd, frame := some fb } =
      ([Event.gpio_set_level GPIO_NUM_33 0,
        Event.esp_camera_fb_get (some fb),
        Event.esp_camera_fb_return (some fb),
        Event.log "Finished Taking Picture!",
        Event.gpio_set_level GPIO_NUM_33 1],
       some { i := (st.i + 1) % 2 ^ 32, pic := some fb, img_buffer := st.img_buffer }) := by
  simp [camera_cycle, capture, free_buffer, save_cam_image_other ext _ fb _ h]

theorem camera_cycle_null (ext : Externals) (st : TaskState) (cmd : Nat) :
    camera_cycle ext st { cmd := cmd, frame := none } =
      ([Event.gpio_set_level GPIO_NUM_33 0, Event.esp_camera_fb_get none], none) := by
  simp [camera_cycle, capture, save_cam_image]

theorem init_camera_ok : init_camera init_ok =
    ([Event.ledc_timer_config 20000000, Event.ledc_channel_config,
      Event.esp_camera_init camera_config], ESP_OK) := by
  decide

theorem camera_task_ok (ext : Externals) (buf : List Nat) (inputs : List CycleInput) :
    camera_task ext init_ok buf inputs =
      { init := [Event.ledc_timer_config 20000000, Event.ledc_channel_config,
          Event.esp_camera_init camera_config, Event.log "camera initialized"]
        cycles := (camera_loop ext { i := 0, pic := none, img_buffer := buf } inputs).1
        status := match (camera_loop ext { i := 0, pic := none, img_buffer := buf } inputs).2 with
          | some _ => TaskStatus.waiting
          | none => TaskStatus.stopped_on_null } := by
  simp [camera_task, init_camera_ok]

theorem photo_name_zero : photo_name 0 = "/sdcard/pic_0.ppm" := by rfl

/-! ## The nearest-neighbour resize on a buffer of equal bytes -/

theorem foldl_set_getD_replicate (n c : Nat) (f : Nat → Nat) (l : List Nat)
    (hf : ∀ o ∈ l, f o < n) :
    l.foldl (fun b o => b.set o (b.getD (f o) 0)) (List.replicate n c) = List.replicate n c := by
  induction l with
  | nil => rfl
  | cons o t ih =>
    have h1 : f o < n := hf o (List.mem_cons_self o t)
    have h2 : (List.replicate n c).set o ((List.replicate n c).getD (f o) 0) =
        List.replicate n c := by
      apply List.ext_getElem
      · simp
      · intro i hi1 hi2
        simp [List.getElem_set, List.getD_eq_getElem?_getD, h1]
    rw [List.foldl_cons, h2]
    exact ih (fun o ho => hf o (List.mem_cons_of_mem _ ho))

theorem resizeColorImage_replicate (c : Nat) :
    resizeColorImage (List.replicate IMG_BUFFER_BYTES c) 160 120 96 96 =
      List.replicate IMG_BUFFER_BYTES c := by
  unfold resizeColorImage
  apply foldl_set_getD_replicate IMG_BUFFER_BYTES c
    (fun o => (((o / 3) / 96 * 120 / 96) * 160 + ((o / 3) % 96 * 160 / 96)) * 3 + o % 3)
  intro o ho
  have h : o < 96 * 96 * 3 := List.mem_range.mp ho
  show _ < 160 * 120 * 3
  omega

theorem replicate_ne_of_ne (n c d : Nat) (hn : 0 < n) (h : c ≠ d) :
    List.replicate n c ≠ List.replicate n d := by
  intro e
  have := congrArg (fun l => l.getD 0 0) e
  simp [List.getD_eq_getElem?_getD, hn] at this
  exact h this

theorem sample_ext_chain_of_empty (fname : String) (c : Nat) :
    save_cam_image sample_ext fname (some empty_jpeg) (List.replicate IMG_BUFFER_BYTES c) =
      some ([Event.fmt2rgb888 [] 0 pixformat_t.PIXFORMAT_JPEG false,
             Event.resizeColorImage 160 120 96 96,
             Event.saveAsPPM fname (List.replicate IMG_BUFFER_BYTES c) 96 96],
            List.replicate IMG_BUFFER_BYTES c) := by
  rw [save_cam_image_jpeg sample_ext fname empty_jpeg _ rfl]
  have h : (fmt2rgb888 sample_ext empty_jpeg.buf empty_jpeg.len pixformat_t.PIXFORMAT_JPEG
      (List.replicate IMG_BUFFER_BYTES c)).2 = List.replicate IMG_BUFFER_BYTES c := by
    simp [fmt2rgb888, sample_ext, empty_jpeg]
  rw [h]
  have r : sample_ext.resize = resizeColorImage := rfl
  rw [r, resizeColorImage_replicate]
  rfl

/-! ## The loop of `camera_task` -/

theorem camera_cycle_valid (ext : Externals) (st : TaskState) (cmd : Nat) (fb : camera_fb_t) :
    ∃ evs st1, camera_cycle ext st { cmd := cmd, frame := some fb } = (evs, some st1) ∧
      st1.i = (st.i + 1) % 2 ^ 32 ∧
      frame_ops evs = [FrameOp.acquire, FrameOp.release] ∧
      (saved evs).map Prod.fst =
        (if fb.format = pixformat_t.PIXFORMAT_JPEG then [photo_name st.i] else []) := by
  by_cases h : fb.format = pixformat_t.PIXFORMAT_JPEG
  · exact ⟨_, _, camera_cycle_jpeg ext st cmd fb h, rfl, by simp [frame_ops, frame_op],
      by simp [saved, h]⟩
  · exact ⟨_, _, camera_cycle_other ext st cmd fb h, rfl, by simp [frame_ops, frame_op],
      by simp [saved, h]⟩

theorem camera_loop_cycle_at (ext : Externals) (inputs : List CycleInput) :
    ∀ (st : TaskState) (k : Nat) (inp : CycleInput), st.i < 2 ^ 32 →
      (∀ x ∈ inputs.take k, x.frame ≠ none) → inputs[k]? = some inp →
      ∃ st1, st1.i = (st.i + k) % 2 ^ 32 ∧
        (camera_loop ext st inputs).1[k]? = some (camera_cycle ext st1 inp).1 := by
  induction inputs with
  | nil => intro st k inp _ _ h; simp at h
  | cons x rest ih =>
    intro st k inp hi hv hk
    cases k with
    | zero =>
      simp at hk
      subst hk
      refine ⟨st, by rw [Nat.add_zero, Nat.mod_eq_of_lt hi], ?_⟩
      unfold camera_loop
      rcases hc : camera_cycle ext st x with ⟨evs, _ | st1⟩ <;> simp
    | succ k =>
      have hx : x.frame ≠ none := hv x (by simp)
      obtain ⟨cmd, frame⟩ := x
      cases frame with
      | none => exact absurd rfl hx
      | some fb =>
        obtain ⟨evs, st1, hc, hi1, _, _⟩ := camera_cycle_valid ext st cmd fb
        have hlt : st1.i < 2 ^ 32 := by rw [hi1]; exact Nat.mod_lt _ (by norm_num)
        obtain ⟨st2, hi2, hn⟩ := ih st1 k inp hlt
          (fun y hy => hv y (by simp [List.take_succ_cons, hy])) (by simpa using hk)
        refine ⟨st2, ?_, ?_⟩
        · rw [hi2, hi1]; omega
        · unfold camera_loop
          rw [hc]
          simpa using hn

theorem camera_loop_frame_ops (ext : Externals) (inputs : List CycleInput) :
    ∀ (st : TaskState), (∀ x ∈ inputs, x.frame ≠ none) →
      frame_ops (camera_loop ext st inputs).1.flatten =
        (List.replicate inputs.length [FrameOp.acquire, FrameOp.release]).flatten ∧
      (camera_loop ext st inputs).1.length = inputs.length ∧
      (camera_loop ext st inputs).2 ≠ none := by
  induction inputs with
  | nil => intro st _; simp [camera_loop, frame_ops]
  | cons x rest ih =>
    intro st hv
    have hx : x.frame ≠ none := hv x (by simp)
    obtain ⟨cmd, frame⟩ := x
    cases frame with
    | none => exact absurd rfl hx
    | some fb =>
      obtain ⟨evs, st1, hc, _, hf, _⟩ := camera_cycle_valid ext st cmd fb
      obtain ⟨h1, h2, h3⟩ := ih st1 (fun y hy => hv y (by simp [hy]))
      unfold camera_loop
      rw [hc]
      simp only [frame_ops] at hf h1 ⊢
      simp [List.replicate_succ, List.filterMap_append, hf, h1, h2, h3]

theorem outstanding_take_alternating (n m : Nat) :
    outstanding ((List.replicate n [FrameOp.acquire, FrameOp.release]).flatten.take m) = 0 ∨
    outstanding ((List.replicate n [FrameOp.acquire, FrameOp.release]).flatten.take m) = 1 := by
  induction n generalizing m with
  | zero => simp [outstanding]
  | succ n ih =>
    match m with
    | 0 => simp [outstanding]
    | 1 => simp [outstanding, List.replicate_succ]
    | m + 2 =>
      have := ih m
      simp only [outstanding, List.replicate_succ, List.flatten_cons, List.cons_append,
        List.nil_append, List.take_succ_cons, List.count_cons] at this ⊢
      simp at this ⊢
      omega

theorem camera_task_cycle_names (ext : Externals) (buf : List Nat) (inputs : List CycleInput)
    (k cmd : Nat) (fb : camera_fb_t) (hv : ∀ x ∈ inputs.take k, x.frame ≠ none)
    (hk : inputs[k]? = some { cmd := cmd, frame := some fb }) :
    ∃ evs, (camera_task ext init_ok buf inputs).cycles[k]? = some evs ∧
      (saved evs).map Prod.fst =
        (if fb.format = pixformat_t.PIXFORMAT_JPEG then [photo_name (k % 2 ^ 32)] else []) := by
  rw [camera_task_ok]
  obtain ⟨st1, hi, hn⟩ := camera_loop_cycle_at ext inputs
    { i := 0, pic := none, img_buffer := buf } k _ (by norm_num) hv hk
  obtain ⟨evs, st2, hc, _, _, hs⟩ := camera_cycle_valid ext st1 cmd fb
  refine ⟨evs, ?_, ?_⟩
  · show (camera_loop ext _ inputs).1[k]? = some evs
    rw [hn, hc]
  · rw [hs, hi, Nat.zero_add]

theorem replicate_cycle_input (n k : Nat) (x : CycleInput) (hx : x.frame ≠ none) (hk : k < n) :
    (∀ y ∈ (List.replicate n x).take k, y.frame ≠ none) ∧ (List.replicate n x)[k]? = some x := by
  constructor
  · intro y hy
    have := List.eq_of_mem_replicate (List.mem_of_mem_take hy)
    rw [this]
    exact hx
  · rw [List.getElem?_replicate]
    simp [hk]

/-! ## The startup sequence -/

theorem camera_cycle_no_startup_step (ext : Externals) (st : TaskState) (inp : CycleInput) :
    startup_chain (camera_cycle ext st inp).1 = [] := by
  obtain ⟨cmd, frame⟩ := inp
  cases frame with
  | none => rw [camera_cycle_null]; rfl
  | some fb =>
    by_cases h : fb.format = pixformat_t.PIXFORMAT_JPEG
    · rw [camera_cycle_jpeg ext st cmd fb h]; rfl
    · rw [camera_cycle_other ext st cmd fb h]; rfl

theorem camera_loop_no_startup_step (ext : Externals) (inputs : List CycleInput) :
    ∀ st : TaskState, List.filterMap startup_step (camera_loop ext st inputs).1.flatten = [] := by
  induction inputs with
  | nil => intro st; rfl
  | cons x rest ih =>
    intro st
    have hx := camera_cycle_no_startup_step ext st x
    unfold startup_chain at hx
    unfold camera_loop
    rcases hc : camera_cycle ext st x with ⟨evs, _ | st1⟩
    · rw [hc] at hx
      simp [hx]
    · rw [hc] at hx
      simp [hx, ih st1]

theorem app_main_nvs_no_startup_step (env : BootEnv) :
    List.filterMap startup_step (app_main_nvs env).1 = [] := by
  unfold app_main_nvs
  split_ifs <;> rfl

theorem startup_chain_startup (ext : Externals) (env : BootEnv) (buf : List Nat)
    (inputs : List CycleInput) :
    startup_chain (startup ext env buf inputs) =
      if env.heap_caps_malloc = false ∨ (app_main_nvs env).2 = false then []
      else if env.initi_sd_card ≠ ESP_OK then [StartupStep.storage_mount]
      else if env.xTaskCreate = false then [StartupStep.storage_mount, StartupStep.task_spawn]
      else if env.camera.ledc_timer_config ≠ ESP_OK then
        [StartupStep.storage_mount, StartupStep.task_spawn, StartupStep.clock_timer]
      else if env.camera.ledc_channel_config ≠ ESP_OK then
        [StartupStep.storage_mount, StartupStep.task_spawn, StartupStep.clock_timer,
          StartupStep.clock_channel]
      else
        [StartupStep.storage_mount, StartupStep.task_spawn, StartupStep.clock_timer,
          StartupStep.clock_channel, StartupStep.sensor_init] := by
  have hn := app_main_nvs_no_startup_step env
  have hl := camera_loop_no_startup_step ext inputs { i := 0, pic := none, img_buffer := buf }
  by_cases hm : env.heap_caps_malloc = false
  · simp [startup, app_main, hm, startup_chain, startup_step]
  by_cases hv : (app_main_nvs env).2 = false
  · simp [startup, app_main, hm, hv, startup_chain, startup_step, List.filterMap_append, hn]
  by_cases hs : env.initi_sd_card = ESP_OK
  swap
  · simp [startup, app_main, hm, hv, hs, startup_chain, startup_step, List.filterMap_append, hn]
  by_cases hx : env.xTaskCreate = false
  · simp [startup, app_main, hm, hv, hs, hx, startup_chain, startup_step,
      List.filterMap_append, hn]
  by_cases ht : env.camera.ledc_timer_config = ESP_OK <;>
    by_cases hc : env.camera.ledc_channel_config = ESP_OK <;>
    by_cases hi : env.camera.esp_camera_init = ESP_OK <;>
    simp [startup, app_main, hm, hv, hs, hx, ht, hc, hi, startup_chain, startup_step,
      List.filterMap_append, hn, hl, camera_task, init_camera, camera_xclk_init, TaskRun.trace]


theorem app_main_nvs_no_frame_op (env : BootEnv) :
    List.filterMap frame_op (app_main_nvs env).1 = [] := by
  unfold app_main_nvs
  split_ifs <;> rfl

theorem camera_task_init_no_frame_op (ext : Externals) (ienv : InitEnv) (buf : List Nat)
    (inputs : List CycleInput) :
    List.filterMap frame_op (camera_task ext ienv buf inputs).init = [] := by
  by_cases ht : ienv.ledc_timer_config = ESP_OK <;>
    by_cases hc : ienv.ledc_channel_config = ESP_OK <;>
    by_cases hi : ienv.esp_camera_init = ESP_OK <;>
    simp [camera_task, init_camera, camera_xclk_init, ht, hc, hi, frame_op]

theorem camera_task_cycles_of_init_failure (ext : Externals) (ienv : InitEnv) (buf : List Nat)
    (inputs : List CycleInput)
    (h : ¬ (ienv.ledc_timer_config = ESP_OK ∧ ienv.ledc_channel_config = ESP_OK ∧
      ienv.esp_camera_init = ESP_OK)) :
    (camera_task ext ienv buf inputs).cycles = [] := by
  by_cases ht : ienv.ledc_timer_config = ESP_OK <;>
    by_cases hc : ienv.ledc_channel_config = ESP_OK <;>
    by_cases hi : ienv.esp_camera_init = ESP_OK <;>
    simp [camera_task, init_camera, camera_xclk_init, ht, hc, hi] at h ⊢

theorem frame_ops_startup (ext : Externals) (env : BootEnv) (buf : List Nat)
    (inputs : List CycleInput) (h : frame_ops (startup ext env buf inputs) ≠ []) :
    env.initi_sd_card = ESP_OK ∧ env.xTaskCreate = true ∧
    env.camera.ledc_timer_config = ESP_OK ∧ env.camera.ledc_channel_config = ESP_OK ∧
    env.camera.esp_camera_init = ESP_OK := by
  have hn := app_main_nvs_no_frame_op env
  have h0 := camera_task_init_no_frame_op ext env.camera buf inputs
  by_cases hm : env.heap_caps_malloc = false
  · simp [startup, app_main, hm, frame_ops, frame_op] at h
  by_cases hv : (app_main_nvs env).2 = false
  · simp [startup, app_main, hm, hv, frame_ops, frame_op, List.filterMap_append, hn] at h
  by_cases hs : env.initi_sd_card = ESP_OK
  swap
  · simp [startup, app_main, hm, hv, hs, frame_ops, frame_op, List.filterMap_append, hn] at h
  by_cases hx : env.xTaskCreate = false
  · simp [startup, app_main, hm, hv, hs, hx, frame_ops, frame_op, List.filterMap_append, hn] at h
  by_cases hi : env.camera.ledc_timer_config = ESP_OK ∧ env.camera.ledc_channel_config = ESP_OK ∧
      env.camera.esp_camera_init = ESP_OK
  · exact ⟨hs, by simpa using hx, hi⟩
  · have hc := camera_task_cycles_of_init_failure ext env.camera buf inputs hi
    simp [startup, app_main, hm, hv, hs, hx, frame_ops, frame_op, List.filterMap_append, hn,
      TaskRun.trace, h0, hc] at h

/-! ## Claims -/

/-- C10: `pair_hash` is the XOR of the hashes of the two components; with
both components of one type (and one hash) it gives `(a, b)` and `(b, a)` the
same value and every `(a, a)` the value 0, so any two keys `(a, a)`, `(b, b)`
collide.  In a map whose key components have two types, as the event-callback
map, the same holds in terms of hash values: keys whose component hashes are
swapped collide, and a key whose two component hashes are equal hashes
to 0. -/
theorem pair_hash_xor_symmetric_diagonal {α β : Type} (h1 : α → Nat) (h2 : β → Nat)
    (h : α → Nat) :
    (∀ p : α × β, pair_hash h1 h2 p = (h1 p.1 % 2 ^ 32) ^^^ (h2 p.2 % 2 ^ 32)) ∧
    (∀ a b : α, pair_hash h h (a, b) = pair_hash h h (b, a)) ∧
    (∀ a : α, pair_hash h h (a, a) = 0) ∧
    (∀ a b : α, pair_hash h h (a, a) = pair_hash h h (b, b)) ∧
    (∀ (a c : α) (b d : β), h1 a = h2 d → h2 b = h1 c →
      pair_hash h1 h2 (a, b) = pair_hash h1 h2 (c, d)) ∧
    (∀ (a : α) (b : β), h1 a = h2 b → pair_hash h1 h2 (a, b) = 0) := by
  refine ⟨fun _ => rfl, fun a b => ?_, fun a => ?_, fun a b => ?_, fun a c b d e1 e2 => ?_,
    fun a b e => ?_⟩
  · simp [pair_hash, Nat.xor_comm]
  · simp [pair_hash]
  · simp [pair_hash]
  · simp [pair_hash, e1, e2, Nat.xor_comm]
  · simp [pair_hash, e]

/-- C5: for a valid frame whose format is not JPEG, `save_cam_image` makes no
call (so none of decode, resize, serialize) and returns the working image
buffer as it was; the iteration of `camera_task` that got the frame calls none
of the three either, keeps the buffer, and releases that frame exactly once,
after the acquire. -/
theorem non_jpeg_frame_skipped_and_released (ext : Externals) (st : TaskState) (cmd : Nat)
    (fb : camera_fb_t) (fname : String) (buf : List Nat)
    (h : fb.format ≠ pixformat_t.PIXFORMAT_JPEG) :
    save_cam_image ext fname (some fb) buf = some ([], buf) ∧
    (camera_cycle ext st { cmd := cmd, frame := some fb }).1.filter is_chain_call = [] ∧
    (camera_cycle ext st { cmd := cmd, frame := some fb }).1.count
      (Event.esp_camera_fb_return (some fb)) = 1 ∧
    frame_ops (camera_cycle ext st { cmd := cmd, frame := some fb }).1 =
      [FrameOp.acquire, FrameOp.release] ∧
    (camera_cycle ext st { cmd := cmd, frame := some fb }).2.map TaskState.img_buffer =
      some st.img_buffer := by
  rw [camera_cycle_other ext st cmd fb h]
  refine ⟨save_cam_image_other ext fname fb buf h, ?_, ?_, ?_, ?_⟩
  · simp [is_chain_call]
  · simp [List.count_cons]
  · simp [frame_ops, frame_op]
  · simp

theorem non_jpeg_frame_skipped_and_released_witness :
    gray_frame.format ≠ pixformat_t.PIXFORMAT_JPEG ∧
    save_cam_image sample_ext "/sdcard/pic_0.ppm" (some gray_frame)
        (List.replicate IMG_BUFFER_BYTES 9) =
      some ([], List.replicate IMG_BUFFER_BYTES 9) :=
  ⟨by decide,
   (non_jpeg_frame_skipped_and_released sample_ext
      { i := 0, pic := none, img_buffer := List.replicate IMG_BUFFER_BYTES 9 } 0
      gray_frame "/sdcard/pic_0.ppm" (List.replicate IMG_BUFFER_BYTES 9) (by decide)).1⟩

/-- C1, at the failing input (the driver returns a null frame for the first
command): `save_cam_image` is still called and stops on `pic->format`; the
iteration ends after busy-low and the acquire, with no release and no
busy-high, and the task is not waiting on the queue again. -/
theorem null_frame_stops_camera_task (ext : Externals) (buf : List Nat) (fname : String) :
    save_cam_image ext fname none buf = none ∧
    (camera_task ext init_ok buf [{ cmd := 0, frame := none }]).cycles =
      [[Event.gpio_set_level GPIO_NUM_33 0, Event.esp_camera_fb_get none]] ∧
    (camera_task ext init_ok buf [{ cmd := 0, frame := none }]).status =
      TaskStatus.stopped_on_null := by
  rw [camera_task_ok]
  simp [camera_loop, camera_cycle_null, save_cam_image]

/-- C2, counterexample: on a JPEG frame whose decode reports failure (and
stores nothing), `save_cam_image` still calls resize and serialize, and a file
is written from what the buffer held before. -/
theorem decode_failure_still_writes_file :
    (save_cam_image sample_ext "/sdcard/pic_0.ppm" (some empty_jpeg)
        (List.replicate IMG_BUFFER_BYTES 7)).map Prod.fst =
      some [Event.fmt2rgb888 [] 0 pixformat_t.PIXFORMAT_JPEG false,
            Event.resizeColorImage 160 120 96 96,
            Event.saveAsPPM "/sdcard/pic_0.ppm" (List.replicate IMG_BUFFER_BYTES 7) 96 96] := by
  rw [sample_ext_chain_of_empty]
  rfl

/-- C2, amended: on a JPEG frame `save_cam_image` calls decode, resize and
serialize once each and in this order whatever decode reports (resize and
serialize work on the buffer as decode left it), and the iteration of
`camera_task` releases the frame exactly once, after the three calls. -/
theorem jpeg_chain_runs_whole_then_release (ext : Externals) (st : TaskState) (cmd : Nat)
    (fb : camera_fb_t) (h : fb.format = pixformat_t.PIXFORMAT_JPEG) :
    (save_cam_image ext (photo_name st.i) (some fb) st.img_buffer).map Prod.fst =
      some [Event.fmt2rgb888 fb.buf fb.len pixformat_t.PIXFORMAT_JPEG
              (ext.decode fb.buf fb.len pixformat_t.PIXFORMAT_JPEG).1,
            Event.resizeColorImage 160 120 96 96,
            Event.saveAsPPM (photo_name st.i)
              (ext.resize (fmt2rgb888 ext fb.buf fb.len pixformat_t.PIXFORMAT_JPEG
                st.img_buffer).2 160 120 96 96) 96 96] ∧
    ((camera_cycle ext st { cmd := cmd, frame := some fb }).1.filter
        (fun e => is_chain_call e || (frame_op e).isSome)) =
      [Event.esp_camera_fb_get (some fb),
       Event.fmt2rgb888 fb.buf fb.len pixformat_t.PIXFORMAT_JPEG
         (ext.decode fb.buf fb.len pixformat_t.PIXFORMAT_JPEG).1,
       Event.resizeColorImage 160 120 96 96,
       Event.saveAsPPM (photo_name st.i)
         (ext.resize (fmt2rgb888 ext fb.buf fb.len pixformat_t.PIXFORMAT_JPEG
           st.img_buffer).2 160 120 96 96) 96 96,
       Event.esp_camera_fb_return (some fb)] := by
  constructor
  · rw [save_cam_image_jpeg ext _ fb _ h]
    rfl
  · rw [camera_cycle_jpeg ext st cmd fb h]
    simp [is_chain_call, frame_op]

theorem jpeg_chain_runs_whole_then_release_witness :
    jpeg_frame.format = pixformat_t.PIXFORMAT_JPEG ∧
    ((camera_cycle sample_ext
        { i := 0, pic := none, img_buffer := List.replicate IMG_BUFFER_BYTES 9 }
        { cmd := 0, frame := some jpeg_frame }).1.filter
        (fun e => is_chain_call e || (frame_op e).isSome)) =
      [Event.esp_camera_fb_get (some jpeg_frame),
       Event.fmt2rgb888 jpeg_frame.buf jpeg_frame.len pixformat_t.PIXFORMAT_JPEG
         (sample_ext.decode jpeg_frame.buf jpeg_frame.len pixformat_t.PIXFORMAT_JPEG).1,
       Event.resizeColorImage 160 120 96 96,
       Event.saveAsPPM (photo_name 0)
         (sample_ext.resize (fmt2rgb888 sample_ext jpeg_frame.buf jpeg_frame.len
           pixformat_t.PIXFORMAT_JPEG (List.replicate IMG_BUFFER_BYTES 9)).2 160 120 96 96) 96 96,
       Event.esp_camera_fb_return (some jpeg_frame)] :=
  ⟨rfl,
   (jpeg_chain_runs_whole_then_release sample_ext
      { i := 0, pic := none, img_buffer := List.replicate IMG_BUFFER_BYTES 9 } 0
      jpeg_frame rfl).2⟩

/-- C8: one trigger dequeued by a freshly initialised `camera_task`, with a
valid JPEG frame: apart from diagnostic output the iteration makes exactly
these calls, in this order, once each: busy line (GPIO 33) low, acquire,
decode into the working image buffer, resize from 160x120 to 96x96,
serialize to `/sdcard/pic_0.ppm` with dimensions 96x96, release, busy line
high; then the task waits on the queue again. -/
theorem single_trigger_jpeg_cycle (ext : Externals) (buf : List Nat) (cmd : Nat)
    (fb : camera_fb_t) (h : fb.format = pixformat_t.PIXFORMAT_JPEG) :
    (camera_task ext init_ok buf [{ cmd := cmd, frame := some fb }]).cycles.map effects =
      [[Event.gpio_set_level 33 0,
        Event.esp_camera_fb_get (some fb),
        Event.fmt2rgb888 fb.buf fb.len pixformat_t.PIXFORMAT_JPEG
          (fmt2rgb888 ext fb.buf fb.len pixformat_t.PIXFORMAT_JPEG buf).1,
        Event.resizeColorImage 160 120 96 96,
        Event.saveAsPPM "/sdcard/pic_0.ppm"
          (ext.resize (fmt2rgb888 ext fb.buf fb.len pixformat_t.PIXFORMAT_JPEG buf).2
            160 120 96 96) 96 96,
        Event.esp_camera_fb_return (some fb),
        Event.gpio_set_level 33 1]] ∧
    (camera_task ext init_ok buf [{ cmd := cmd, frame := some fb }]).status =
      TaskStatus.waiting := by
  rw [camera_task_ok]
  simp [camera_loop, camera_cycle_jpeg ext _ cmd fb h, effects, is_log, photo_name_zero,
    GPIO_NUM_33, fmt2rgb888]

theorem single_trigger_jpeg_cycle_witness :
    jpeg_frame.format = pixformat_t.PIXFORMAT_JPEG ∧
    (camera_task sample_ext init_ok (List.replicate IMG_BUFFER_BYTES 9)
      [{ cmd := 0, frame := some jpeg_frame }]).status = TaskStatus.waiting :=
  ⟨rfl, (single_trigger_jpeg_cycle sample_ext (List.replicate IMG_BUFFER_BYTES 9) 0
    jpeg_frame rfl).2⟩

/-- C4, counterexample: in a run of 2^32 + 1 cycles on JPEG frames, the
cycle number 2^32 writes its file under the name `/sdcard/pic_0.ppm`, the name
of cycle 0, not `/sdcard/pic_4294967296.ppm`. -/
theorem file_name_counter_wraps :
    ((camera_task sample_ext init_ok (List.replicate IMG_BUFFER_BYTES 0)
        (List.replicate (2 ^ 32 + 1) { cmd := 0, frame := some jpeg_frame })).cycles[2 ^ 32]?).map
      (fun evs => (saved evs).map Prod.fst) = some ["/sdcard/pic_0.ppm"] ∧
    photo_name (2 ^ 32) = "/sdcard/pic_4294967296.ppm" := by
  refine ⟨?_, by rfl⟩
  obtain ⟨hv, hk⟩ := replicate_cycle_input (2 ^ 32 + 1) (2 ^ 32)
    { cmd := 0, frame := some jpeg_frame } (by simp) (Nat.lt_succ_self _)
  obtain ⟨evs, h1, h2⟩ := camera_task_cycle_names sample_ext (List.replicate IMG_BUFFER_BYTES 0)
    _ (2 ^ 32) 0 jpeg_frame hv hk
  have hf : jpeg_frame.format = pixformat_t.PIXFORMAT_JPEG := rfl
  rw [h1, Option.map_some', h2, Nat.mod_self, if_pos hf, photo_name_zero]

/-- C4, amended: for every k below 2^32, the k-th iteration (from 0) of a run
of `camera_task` that reaches it writes no file when its frame is not JPEG and
otherwise exactly one, under the name `/sdcard/pic_<k>.ppm` with k in decimal;
the counter starts at 0 and is the iteration number, so it increases strictly
over these iterations. -/
theorem cycle_file_name_below_wrap (ext : Externals) (buf : List Nat)
    (inputs : List CycleInput) (k cmd : Nat) (fb : camera_fb_t)
    (hv : ∀ x ∈ inputs.take k, x.frame ≠ none)
    (hk : inputs[k]? = some { cmd := cmd, frame := some fb }) (hlt : k < 2 ^ 32) :
    ∃ evs, (camera_task ext init_ok buf inputs).cycles[k]? = some evs ∧
      (saved evs).map Prod.fst =
        (if fb.format = pixformat_t.PIXFORMAT_JPEG then
          ["/sdcard/pic_" ++ toString k ++ ".ppm"] else []) := by
  obtain ⟨evs, h1, h2⟩ := camera_task_cycle_names ext buf inputs k cmd fb hv hk
  refine ⟨evs, h1, ?_⟩
  rw [h2, Nat.mod_eq_of_lt hlt]
  rfl

theorem cycle_file_name_below_wrap_witness :
    (∀ x ∈ ([{ cmd := 0, frame := some gray_frame },
        { cmd := 0, frame := some jpeg_frame }] : List CycleInput).take 1, x.frame ≠ none) ∧
    ∃ evs, (camera_task sample_ext init_ok (List.replicate IMG_BUFFER_BYTES 0)
        [{ cmd := 0, frame := some gray_frame },
         { cmd := 0, frame := some jpeg_frame }]).cycles[1]? = some evs ∧
      (saved evs).map Prod.fst =
        (if jpeg_frame.format = pixformat_t.PIXFORMAT_JPEG then
          ["/sdcard/pic_" ++ toString 1 ++ ".ppm"] else []) :=
  ⟨by decide,
   cycle_file_name_below_wrap sample_ext (List.replicate IMG_BUFFER_BYTES 0)
     [{ cmd := 0, frame := some gray_frame }, { cmd := 0, frame := some jpeg_frame }]
     1 0 jpeg_frame (by decide) rfl (by norm_num)⟩

/-- C3, at the failing input (two commands, the driver returns a null frame
for the first): the run makes one acquire and no release, and the task is not
waiting on the queue for the second command. -/
theorem null_frame_breaks_acquire_release_pairing (ext : Externals) (buf : List Nat) :
    frame_ops (camera_task ext init_ok buf
      [{ cmd := 0, frame := none }, { cmd := 0, frame := some jpeg_frame }]).trace =
        [FrameOp.acquire] ∧
    (camera_task ext init_ok buf
      [{ cmd := 0, frame := none }, { cmd := 0, frame := some jpeg_frame }]).status =
        TaskStatus.stopped_on_null := by
  rw [camera_task_ok]
  simp [camera_loop, camera_cycle_null, TaskRun.trace, frame_ops, frame_op]

/-- With every frame valid, N commands give N acquires and N releases,
alternating and starting with an acquire, the number of outstanding frames is
0 or 1 after every event, and the task waits on the queue again. -/
theorem camera_task_pairs_acquire_release (ext : Externals) (buf : List Nat)
    (inputs : List CycleInput) (hv : ∀ x ∈ inputs, x.frame ≠ none) :
    frame_ops (camera_task ext init_ok buf inputs).trace =
      (List.replicate inputs.length [FrameOp.acquire, FrameOp.release]).flatten ∧
    (∀ m, outstanding (frame_ops ((camera_task ext init_ok buf inputs).trace.take m)) = 0 ∨
      outstanding (frame_ops ((camera_task ext init_ok buf inputs).trace.take m)) = 1) ∧
    (camera_task ext init_ok buf inputs).status = TaskStatus.waiting := by
  obtain ⟨h1, _, h3⟩ := camera_loop_frame_ops ext inputs
    { i := 0, pic := none, img_buffer := buf } hv
  have hops : frame_ops (camera_task ext init_ok buf inputs).trace =
      (List.replicate inputs.length [FrameOp.acquire, FrameOp.release]).flatten := by
    rw [camera_task_ok]
    simp only [TaskRun.trace, frame_ops, List.filterMap_append] at h1 ⊢
    rw [h1]
    simp [frame_op]
  refine ⟨hops, ?_, ?_⟩
  · intro m
    have hp : frame_ops ((camera_task ext init_ok buf inputs).trace.take m) <+:
        frame_ops (camera_task ext init_ok buf inputs).trace :=
      List.IsPrefix.filterMap frame_op (List.take_prefix m _)
    rw [hops] at hp
    rw [List.prefix_iff_eq_take.mp hp]
    exact outstanding_take_alternating _ _
  · rw [camera_task_ok]
    cases h : (camera_loop ext { i := 0, pic := none, img_buffer := buf } inputs).2 with
    | none => exact absurd h h3
    | some _ => rfl

/-- C7, counterexample: the same JPEG frame (one whose decode fails and
stores nothing) and the same file name, run from two working buffers of
different contents, hand different 96x96 pixel data to `saveAsPPM`. -/
theorem stale_buffer_reaches_saveAsPPM :
    chain_output sample_ext "/sdcard/pic_0.ppm" empty_jpeg (List.replicate IMG_BUFFER_BYTES 0) ≠
    chain_output sample_ext "/sdcard/pic_0.ppm" empty_jpeg (List.replicate IMG_BUFFER_BYTES 255) := by
  unfold chain_output
  rw [sample_ext_chain_of_empty, sample_ext_chain_of_empty]
  simp only [saved, ne_eq, List.cons.injEq, Prod.mk.injEq, true_and, and_true,
    List.take_replicate]
  exact replicate_ne_of_ne _ _ _ (by decide) (by decide)

/-- C7, amended: for a JPEG frame whose decode stores a whole image of
160*120*3 bytes (every byte of the working buffer), and every file name, the
chain run from any two prior contents of the buffer hands `saveAsPPM` the same
thing both times: that file name, dimensions 96x96, and the resize of the
decoded bytes. -/
theorem chain_output_independent_of_buffer (ext : Externals) (fname : String)
    (fb : camera_fb_t) (b1 b2 : List Nat) (h : fb.format = pixformat_t.PIXFORMAT_JPEG)
    (hd : (ext.decode fb.buf fb.len pixformat_t.PIXFORMAT_JPEG).2.length = IMG_BUFFER_BYTES)
    (h1 : b1.length = IMG_BUFFER_BYTES) (h2 : b2.length = IMG_BUFFER_BYTES) :
    chain_output ext fname fb b1 = chain_output ext fname fb b2 ∧
    chain_output ext fname fb b1 =
      [(fname, (ext.resize (ext.decode fb.buf fb.len pixformat_t.PIXFORMAT_JPEG).2
        160 120 96 96).take (96 * 96 * 3), 96, 96)] := by
  have key : ∀ b : List Nat, b.length = IMG_BUFFER_BYTES →
      chain_output ext fname fb b =
        [(fname, (ext.resize (ext.decode fb.buf fb.len pixformat_t.PIXFORMAT_JPEG).2
          160 120 96 96).take (96 * 96 * 3), 96, 96)] := by
    intro b hb
    unfold chain_output
    rw [save_cam_image_jpeg ext fname fb b h]
    have hdrop : List.drop (ext.decode fb.buf fb.len pixformat_t.PIXFORMAT_JPEG).2.length b
        = [] := by
      rw [List.drop_eq_nil_iff, hd, hb]
    simp [saved, fmt2rgb888, hdrop]
  exact ⟨(key b1 h1).trans (key b2 h2).symm, key b1 h1⟩

theorem chain_output_independent_of_buffer_witness :
    jpeg_frame.format = pixformat_t.PIXFORMAT_JPEG ∧
    (sample_ext.decode jpeg_frame.buf jpeg_frame.len pixformat_t.PIXFORMAT_JPEG).2.length =
      IMG_BUFFER_BYTES ∧
    chain_output sample_ext "/sdcard/pic_0.ppm" jpeg_frame (List.replicate IMG_BUFFER_BYTES 0) =
      chain_output sample_ext "/sdcard/pic_0.ppm" jpeg_frame (List.replicate IMG_BUFFER_BYTES 255) :=
  ⟨rfl, List.length_replicate _ _,
   (chain_output_independent_of_buffer sample_ext "/sdcard/pic_0.ppm" jpeg_frame
      (List.replicate IMG_BUFFER_BYTES 0) (List.replicate IMG_BUFFER_BYTES 255) rfl
      (List.length_replicate _ _) (List.length_replicate _ _) (List.length_replicate _ _)).1⟩

/-- C9: the working image buffer that `app_main` allocates has 160*120*3
bytes, at least the RGB888 size of the frame size configured in `init_camera`
(QQVGA, 160x120) and at least the resized size 96*96*3; the source dimensions
that `save_cam_image` passes to `resizeColorImage` are those of the configured
frame size; so every byte offset of a decoded image and of a resized image
lies inside the buffer, and a decode of at most the configured size leaves
the buffer at its length. -/
theorem img_buffer_holds_decoded_and_resized (ext : Externals) (env : BootEnv) (ienv : InitEnv)
    (fname : String) (fb : camera_fb_t) (buf : List Nat) :
    Event.heap_caps_malloc IMG_BUFFER_BYTES ∈ (app_main env).1 ∧
    IMG_BUFFER_BYTES = 160 * 120 * 3 ∧
    (∀ c, Event.esp_camera_init c ∈ (init_camera ienv).1 →
      resolution c.frame_size = (160, 120)) ∧
    max (rgb888_size (resolution camera_config.frame_size)) (rgb888_size (96, 96)) ≤
      IMG_BUFFER_BYTES ∧
    (∀ sw sh dw dh, Event.resizeColorImage sw sh dw dh ∈
        ((save_cam_image ext fname (some fb) buf).map Prod.fst).getD [] →
      (sw, sh) = resolution camera_config.frame_size ∧ (dw, dh) = (96, 96)) ∧
    (∀ x y c, x < (resolution camera_config.frame_size).1 →
      y < (resolution camera_config.frame_size).2 → c < 3 →
      rgb888_offset (resolution camera_config.frame_size).1 x y c < IMG_BUFFER_BYTES) ∧
    (∀ x y c, x < 96 → y < 96 → c < 3 → rgb888_offset 96 x y c < IMG_BUFFER_BYTES) ∧
    (buf.length = IMG_BUFFER_BYTES →
      (ext.decode fb.buf fb.len pixformat_t.PIXFORMAT_JPEG).2.length ≤
        rgb888_size (resolution camera_config.frame_size) →
      (fmt2rgb888 ext fb.buf fb.len pixformat_t.PIXFORMAT_JPEG buf).2.length =
        IMG_BUFFER_BYTES) := by
  refine ⟨?_, rfl, ?_, by decide, ?_, ?_, ?_, ?_⟩
  · by_cases hm : env.heap_caps_malloc = false <;>
      by_cases hn : (app_main_nvs env).2 = false <;>
      by_cases hs : env.initi_sd_card = ESP_OK <;>
      simp [app_main, hm, hn, hs]
  · intro c hc
    have : c = camera_config := by
      by_cases ht : ienv.ledc_timer_config = ESP_OK <;>
        by_cases hl : ienv.ledc_channel_config = ESP_OK <;>
        by_cases hi : ienv.esp_camera_init = ESP_OK <;>
        simp [init_camera, camera_xclk_init, ht, hl, hi] at hc <;>
        exact hc
    rw [this]
    rfl
  · intro sw sh dw dh hm
    by_cases hf : fb.format = pixformat_t.PIXFORMAT_JPEG
    · rw [save_cam_image_jpeg ext fname fb buf hf] at hm
      simp at hm
      obtain ⟨rfl, rfl, rfl, rfl⟩ := hm
      exact ⟨rfl, rfl⟩
    · rw [save_cam_image_other ext fname fb buf hf] at hm
      simp at hm
  · intro x y c hx hy hc
    have hx1 : x < 160 := hx
    have hy1 : y < 120 := hy
    show (y * 160 + x) * 3 + c < 160 * 120 * 3
    omega
  · intro x y c hx hy hc
    show (y * 96 + x) * 3 + c < 160 * 120 * 3
    omega
  · intro hb hd
    have hd1 : (ext.decode fb.buf fb.len pixformat_t.PIXFORMAT_JPEG).2.length ≤ 160 * 120 * 3 :=
      hd
    have hb1 : buf.length = 160 * 120 * 3 := hb
    show ((ext.decode fb.buf fb.len pixformat_t.PIXFORMAT_JPEG).2 ++ _).length = 160 * 120 * 3
    rw [List.length_append, List.length_drop]
    omega

/-- C6, counterexample: when every step succeeds the order is storage mount,
task spawn, clock configure (timer, channel), sensor init: the task is spawned
before the clock is configured and the sensor initialised; and when the
configuration of the clock fails the task has been spawned all the same. -/
theorem task_spawned_before_clock_and_sensor :
    startup_chain (startup sample_ext boot_ok (List.replicate IMG_BUFFER_BYTES 0) []) =
      [StartupStep.storage_mount, StartupStep.task_spawn, StartupStep.clock_timer,
        StartupStep.clock_channel, StartupStep.sensor_init] ∧
    startup_chain (startup sample_ext clock_fails (List.replicate IMG_BUFFER_BYTES 0) []) =
      [StartupStep.storage_mount, StartupStep.task_spawn, StartupStep.clock_timer] := by
  constructor <;> rw [startup_chain_startup] <;> decide

/-- C6, amended: the startup goes through the chain storage mount, task
spawn, clock configure (timer, then channel), sensor init in this order and
stops at the first step that fails: a step runs only after every earlier step
of this chain has run and succeeded, and a frame is acquired or released only
after all of them, sensor init included, have succeeded. -/
theorem startup_chain_in_code_order (ext : Externals) (env : BootEnv) (buf : List Nat)
    (inputs : List CycleInput) :
    startup_chain (startup ext env buf inputs) <+:
      [StartupStep.storage_mount, StartupStep.task_spawn, StartupStep.clock_timer,
        StartupStep.clock_channel, StartupStep.sensor_init] ∧
    (StartupStep.task_spawn ∈ startup_chain (startup ext env buf inputs) →
      env.initi_sd_card = ESP_OK) ∧
    (StartupStep.clock_timer ∈ startup_chain (startup ext env buf inputs) →
      env.initi_sd_card = ESP_OK ∧ env.xTaskCreate = true) ∧
    (StartupStep.clock_channel ∈ startup_chain (startup ext env buf inputs) →
      env.initi_sd_card = ESP_OK ∧ env.xTaskCreate = true ∧
      env.camera.ledc_timer_config = ESP_OK) ∧
    (StartupStep.sensor_init ∈ startup_chain (startup ext env buf inputs) →
      env.initi_sd_card = ESP_OK ∧ env.xTaskCreate = true ∧
      env.camera.ledc_timer_config = ESP_OK ∧ env.camera.ledc_channel_config = ESP_OK) ∧
    (frame_ops (startup ext env buf inputs) ≠ [] →
      env.initi_sd_card = ESP_OK ∧ env.xTaskCreate = true ∧
      env.camera.ledc_timer_config = ESP_OK ∧ env.camera.ledc_channel_config = ESP_OK ∧
      env.camera.esp_camera_init = ESP_OK) := by
  refine ⟨?_, ?_, ?_, ?_, ?_, frame_ops_startup ext env buf inputs⟩ <;>
    rw [startup_chain_startup] <;>
    split_ifs <;> simp_all

end EspCam
